import Mathlib

/-!
# Path-permissions middleware

A shallow embedding of `middleware.go` (package `filepermissions`) and the
properties of its authorization gate.

Modelling conventions.

* A Go `string` is a finite sequence of bytes (`GoString`).  String literals of
  the source are written `str "..."`, the UTF-8 bytes of the literal.
* The handler talks to four interfaces: `helpers` (two methods), the response
  writer `w`, the `next` handler and the standard logger.  A run of the handler
  is recorded as the sequence of interface calls that took effect, in program
  order, together with the way the run ended (normal return or Go panic).
* The two `Helpers` methods are functions of the request returning the Go pair
  `(value, error)`; they do not write to the request they are given.
* `int` is modelled by `Int`: the program compares and forwards codes and
  performs no arithmetic on them.
-/

namespace FilePermissions

/-! ## Data model -/

/-- A Go `string`: a sequence of bytes. -/
abbrev GoString := List UInt8

/-- The bytes of a string literal of the source (Go source text is UTF-8). -/
def str (s : String) : GoString := s.data.flatMap String.utf8EncodeChar

/-- The struct `Error`: an error generated by the package. -/
structure Error where
  Code : Int
  Message : GoString
deriving DecidableEq

/-- A non-nil value of the Go interface type `error`, split by dynamic type:
`ptrError p` has dynamic type `*Error` and holds the pointer `p` (`none` is
the nil pointer, `some v` points to the struct `v`); `other msg` has any other
dynamic type, and `msg` is what its `Error()` method prints. -/
inductive GoError where
  | ptrError (p : Option Error)
  | other (msg : GoString)
deriving DecidableEq

/-- The type `AccessLevel`: a named string type. -/
abbrev AccessLevel := GoString

/-- The constant `Read`. -/
def Read : AccessLevel := str "R"

/-- The constant `ReadWrite`. -/
def ReadWrite : AccessLevel := str "RW"

/-- The struct `PathGrant`. -/
structure PathGrant where
  Access : AccessLevel
  Path : GoString
deriving DecidableEq

/-- The content of an `http.Request` value.  The handler reads `Method` only;
the other fields stand for the rest of the request. -/
structure Request where
  Method : GoString
  URL : GoString
  Header : List (GoString × GoString)
  Body : GoString
deriving DecidableEq

/-- The interface `Helpers`.  Each method returns the Go pair
`(value, error)`, the error being `none` for `nil`. -/
structure Helpers where
  GetUserGrants : Request → List PathGrant × Option GoError
  GetRequestedPath : Request → GoString × Option GoError

/-- The constant `http.MethodGet`. -/
def MethodGet : GoString := str "GET"

/-- The constant `http.MethodPost`. -/
def MethodPost : GoString := str "POST"

/-- The constant `http.MethodPatch`. -/
def MethodPatch : GoString := str "PATCH"

/-- The constant `http.MethodPut`. -/
def MethodPut : GoString := str "PUT"

/-- The constant `http.MethodDelete`. -/
def MethodDelete : GoString := str "DELETE"

/-- The constant `http.StatusBadRequest`. -/
def StatusBadRequest : Int := 400

/-- The constant `http.StatusUnauthorized`. -/
def StatusUnauthorized : Int := 401

/-- The constant `http.StatusInternalServerError`. -/
def StatusInternalServerError : Int := 500

/-! ## Runs: interface calls and panics -/

/-- An interface call made by the handler that took effect. -/
inductive Call where
  | GetUserGrants (r : Request)
  | GetRequestedPath (r : Request)
  | WriteHeader (code : Int)
  | Write (b : GoString)
  | ServeHTTP (r : Request)
  | Println (line : GoString)
deriving DecidableEq

/-- The Go run-time panics the handler can raise. -/
inductive Panic where
  | nilPointerDereference
  | invalidWriteHeaderCode (code : Int)
deriving DecidableEq

/-- The way a computation ends: it returns a value or it panics. -/
inductive Exit (α : Type) where
  | returned (a : α)
  | panicked (p : Panic)
deriving DecidableEq

/-- A run: the calls made, in order, and the way the run ended. -/
structure Run (α : Type) where
  calls : List Call
  exit : Exit α
deriving DecidableEq

/-- A run that makes no call and returns `a`. -/
def Run.pure {α : Type} (a : α) : Run α := ⟨[], .returned a⟩

/-- Sequencing: the second computation runs only if the first one returned. -/
def Run.bind {α β : Type} (m : Run α) (f : α → Run β) : Run β :=
  match m.exit with
  | .panicked p => ⟨m.calls, .panicked p⟩
  | .returned a => ⟨m.calls ++ (f a).calls, (f a).exit⟩

instance : Monad Run where
  pure := Run.pure
  bind := Run.bind

/-- A single call that takes effect and returns. -/
def call (c : Call) : Run Unit := ⟨[c], .returned ()⟩

/-- A Go panic: the run stops here. -/
def panicWith {α : Type} (p : Panic) : Run α := ⟨[], .panicked p⟩

/-- Reading a field through a `*Error` pointer: a nil pointer panics. -/
def load : Option Error → Run Error
  | none => panicWith .nilPointerDereference
  | some v => Run.pure v

/-- The method `w.WriteHeader(code)` of `http.ResponseWriter`, on a writer
whose header has not been written yet, after the `net/http` documentation:
the code must have three digits, and the writers of `net/http` panic on any
other code before sending anything. -/
def WriteHeader (code : Int) : Run Unit :=
  if code < 100 ∨ code > 999 then panicWith (.invalidWriteHeaderCode code)
  else call (.WriteHeader code)

/-- The method `w.Write(b)` of `http.ResponseWriter`. -/
def Write (b : GoString) : Run Unit := call (.Write b)

/-! ## The program -/

/-- The function `strings.HasPrefix` of the Go standard library:
`len(s) >= len(prefix) && s[:len(prefix)] == prefix`. -/
def HasPrefix (s pre : GoString) : Bool :=
  decide (s.length ≥ pre.length) && decide (s.take pre.length = pre)

/-- The type assertion `err, ok := e.(*Error)`. -/
def assertPtrError : GoError → Option Error × Bool
  | .ptrError p => (p, true)
  | .other _ => (none, false)

/-- What `fmt` prints for a `*Error` operand: the result of its `Error()`
method, and `<nil>` for a nil pointer. -/
def printPtrError : Option Error → GoString
  | none => str "<nil>"
  | some v => v.Message

/-- What `fmt` prints for an `error` operand. -/
def printError : GoError → GoString
  | .ptrError p => printPtrError p
  | .other msg => msg

/-- The text of the line
`log.Println("error in file permissions middleware:", err, e)`, without the
time stamp the logger puts in front: operands separated by a space, a newline
at the end. -/
def logLine (err : Option Error) (e : GoError) : GoString :=
  str "error in file permissions middleware:" ++ str " " ++ printPtrError err
    ++ str " " ++ printError e ++ str "\n"

/-- The function `handleError`. -/
def handleError (e : GoError) : Run Unit := do
  let (err, ok) := assertPtrError e
  if !ok then
    WriteHeader StatusInternalServerError
    Write (str "internal server error")
  else
    let v ← load err
    WriteHeader v.Code
    if v.Code = StatusUnauthorized then
      Write (str "401 - Unauthorized")
    else if v.Code = StatusBadRequest then
      Write (str "400 - Bad Request")
  call (.Println (logLine err e))

/-- The loop `for _, grant := range grants { ... }` of the handler, started
with `allowed := false`: the value of `allowed` after the loop. -/
def allowedLoop (method path : GoString) : List PathGrant → Bool
  | [] => false
  | grant :: grants =>
    if HasPrefix path grant.Path then
      if method = MethodGet ∧ (grant.Access = Read ∨ grant.Access = ReadWrite) then
        true
      else if (method = MethodPost ∨ method = MethodPatch ∨ method = MethodPut
          ∨ method = MethodDelete) ∧ grant.Access = ReadWrite then
        true
      else allowedLoop method path grants
    else allowedLoop method path grants

/-- The handler returned by `CreateFilePermissionsMiddleware(helpers)(next)`,
run on the request `r`. -/
def CreateFilePermissionsMiddleware (helpers : Helpers) (r : Request) : Run Unit := do
  call (.GetUserGrants r)
  let (grants, err) := helpers.GetUserGrants r
  if let some e := err then
    handleError e
  else
    call (.GetRequestedPath r)
    let (path, err) := helpers.GetRequestedPath r
    if let some e := err then
      handleError e
    else
      let allowed := allowedLoop r.Method path grants
      if allowed == false then
        WriteHeader StatusUnauthorized
        Write (str "401 - Unauthorized")
      else
        call (.ServeHTTP r)

/-! ## Observations on a run -/

/-- The requests handed to `next.ServeHTTP`, in order. -/
def nextRequests : List Call → List Request
  | [] => []
  | .ServeHTTP r :: cs => r :: nextRequests cs
  | _ :: cs => nextRequests cs

/-- The status codes passed to `w.WriteHeader`, in order. -/
def headersWritten : List Call → List Int
  | [] => []
  | .WriteHeader c :: cs => c :: headersWritten cs
  | _ :: cs => headersWritten cs

/-- The bytes passed to `w.Write`, concatenated: the response body. -/
def bodyWritten : List Call → GoString
  | [] => []
  | .Write b :: cs => b ++ bodyWritten cs
  | _ :: cs => bodyWritten cs

/-- Interim status codes of `net/http`: a `WriteHeader` with a code from 100
to 199 other than 101 sends an informational header at once and leaves the
status of the response open. -/
def interimStatus (code : Int) : Bool :=
  decide (100 ≤ code ∧ code ≤ 199 ∧ code ≠ 101)

/-- The status the writer of `net/http` gives the response for a sequence of
calls on it: the code of the first `WriteHeader` that is not interim; 200 when
a `Write` comes before it, and 200 when the handler returns without either.
After a call of the next handler the status is that handler's to set
(`none`). -/
def statusOfCalls : List Call → Option Int
  | [] => some 200
  | .WriteHeader c :: cs => if interimStatus c then statusOfCalls cs else some c
  | .Write _ :: _ => some 200
  | .ServeHTTP _ :: _ => none
  | _ :: cs => statusOfCalls cs

/-- The status of the response the client gets from a run of the handler on
a `net/http` server; a run that panics gets no response from the handler. -/
def responseStatus (run : Run Unit) : Option Int :=
  match run.exit with
  | .panicked _ => none
  | .returned _ => statusOfCalls run.calls

/-! ## The words of the specification -/

/-- Specification, section 4.3 step 2: the requested path starts with the
grant's path, and the method is read-like (`GET`) with access `Read` or
`ReadWrite`, or write-like (`POST`, `PATCH`, `PUT`, `DELETE`) with access
`ReadWrite`.  "Starts with" is the prefix relation on byte sequences. -/
def specGrantAllows (g : PathGrant) (method path : GoString) : Prop :=
  g.Path <+: path ∧
    ((method = MethodGet ∧ (g.Access = Read ∨ g.Access = ReadWrite)) ∨
      ((method = MethodPost ∨ method = MethodPatch ∨ method = MethodPut
        ∨ method = MethodDelete) ∧ g.Access = ReadWrite))

instance (g : PathGrant) (method path : GoString) :
    Decidable (specGrantAllows g method path) := by
  unfold specGrantAllows; infer_instance

/-- Specification, section 4.4, outcome `allow`: both collaborators are
consulted, then the next handler is invoked with the request; the gate writes
nothing. -/
def specAllow (r : Request) : Run Unit :=
  ⟨[.GetUserGrants r, .GetRequestedPath r, .ServeHTTP r], .returned ()⟩

/-- Specification, section 4.4, outcome `deny`: both collaborators are
consulted, then status 401 and the body `401 - Unauthorized` are written; the
next handler is not invoked. -/
def specDeny (r : Request) : Run Unit :=
  ⟨[.GetUserGrants r, .GetRequestedPath r, .WriteHeader 401,
    .Write (str "401 - Unauthorized")], .returned ()⟩

/-! ## Concrete collaborators and requests -/

/-- Helpers that answer every request with the same two pairs. -/
def constHelpers (g : List PathGrant × Option GoError) (p : GoString × Option GoError) :
    Helpers :=
  ⟨fun _ => g, fun _ => p⟩

/-- Helpers that succeed on every request with `grants` and `path`. -/
def succeeding (grants : List PathGrant) (path : GoString) : Helpers :=
  constHelpers (grants, none) (path, none)

/-- A request with the given method and fixed other fields. -/
def requestWith (method : String) : Request :=
  ⟨str method, str "/files?id=7", [(str "Accept", str "*/*")], str "payload"⟩

/-! ## Lemmas on the program -/

theorem str_append (a b : String) : str (a ++ b) = str a ++ str b := by
  simp [str, List.flatMap_append]

theorem HasPrefix_iff (s pre : GoString) : HasPrefix s pre = true ↔ pre <+: s := by
  unfold HasPrefix
  rw [List.prefix_iff_eq_take]
  constructor
  · intro h
    simp only [Bool.and_eq_true, decide_eq_true_eq] at h
    exact h.2.symm
  · intro h
    simp only [Bool.and_eq_true, decide_eq_true_eq]
    refine ⟨?_, h.symm⟩
    have hlen := congrArg List.length h
    rw [List.length_take] at hlen
    omega

theorem allowedLoop_iff (method path : GoString) (grants : List PathGrant) :
    allowedLoop method path grants = true ↔
      ∃ g ∈ grants, specGrantAllows g method path := by
  induction grants with
  | nil => simp [allowedLoop]
  | cons g gs ih =>
    rw [allowedLoop, List.exists_mem_cons_iff, ← ih]
    unfold specGrantAllows
    rw [← HasPrefix_iff]
    by_cases hp : HasPrefix path g.Path = true
    · by_cases h1 : method = MethodGet ∧ (g.Access = Read ∨ g.Access = ReadWrite)
      · simp [hp, h1]
      · by_cases h2 : (method = MethodPost ∨ method = MethodPatch ∨ method = MethodPut
            ∨ method = MethodDelete) ∧ g.Access = ReadWrite
        · simp [hp, h2]
        · simp [hp, h1, h2]
    · simp [hp]

theorem allowedLoop_eq_false_iff (method path : GoString) (grants : List PathGrant) :
    allowedLoop method path grants = false ↔
      ¬ ∃ g ∈ grants, specGrantAllows g method path := by
  rw [← allowedLoop_iff, Bool.not_eq_true]

theorem specAllow_ne_specDeny (r : Request) : specAllow r ≠ specDeny r := by
  intro h
  have hlen := congrArg (fun x => x.calls.length) h
  simp [specAllow, specDeny] at hlen

theorem bodyWritten_specDeny (r : Request) :
    bodyWritten (specDeny r).calls = str "401 - Unauthorized" := by
  simp [specDeny, bodyWritten]

/-- The run of the handler when both collaborators succeed. -/
theorem run_of_success (helpers : Helpers) (r : Request) (grants : List PathGrant)
    (path : GoString) (hg : helpers.GetUserGrants r = (grants, none))
    (hp : helpers.GetRequestedPath r = (path, none)) :
    CreateFilePermissionsMiddleware helpers r =
      if allowedLoop r.Method path grants = true then specAllow r else specDeny r := by
  unfold CreateFilePermissionsMiddleware
  rw [hg, hp]
  dsimp only
  cases h : allowedLoop r.Method path grants <;> rfl

theorem run_allow (helpers : Helpers) (r : Request) (grants : List PathGrant)
    (path : GoString) (hg : helpers.GetUserGrants r = (grants, none))
    (hp : helpers.GetRequestedPath r = (path, none))
    (h : ∃ g ∈ grants, specGrantAllows g r.Method path) :
    CreateFilePermissionsMiddleware helpers r = specAllow r := by
  rw [run_of_success helpers r grants path hg hp, if_pos ((allowedLoop_iff _ _ _).2 h)]

theorem run_deny (helpers : Helpers) (r : Request) (grants : List PathGrant)
    (path : GoString) (hg : helpers.GetUserGrants r = (grants, none))
    (hp : helpers.GetRequestedPath r = (path, none))
    (h : ¬ ∃ g ∈ grants, specGrantAllows g r.Method path) :
    CreateFilePermissionsMiddleware helpers r = specDeny r := by
  rw [run_of_success helpers r grants path hg hp, if_neg]
  rw [allowedLoop_iff]
  exact h

/-- The run of the handler when the grant source fails. -/
theorem run_of_grant_failure (helpers : Helpers) (r : Request) (grants : List PathGrant)
    (e : GoError) (hg : helpers.GetUserGrants r = (grants, some e)) :
    CreateFilePermissionsMiddleware helpers r =
      ⟨.GetUserGrants r :: (handleError e).calls, (handleError e).exit⟩ := by
  unfold CreateFilePermissionsMiddleware
  rw [hg]
  rfl

/-- The run of the handler when the grant source succeeds and the path
resolver fails. -/
theorem run_of_path_failure (helpers : Helpers) (r : Request) (grants : List PathGrant)
    (path : GoString) (e : GoError) (hg : helpers.GetUserGrants r = (grants, none))
    (hp : helpers.GetRequestedPath r = (path, some e)) :
    CreateFilePermissionsMiddleware helpers r =
      ⟨.GetUserGrants r :: .GetRequestedPath r :: (handleError e).calls,
        (handleError e).exit⟩ := by
  unfold CreateFilePermissionsMiddleware
  rw [hg, hp]
  rfl

theorem handleError_other (msg : GoString) :
    handleError (.other msg) =
      ⟨[.WriteHeader 500, .Write (str "internal server error"),
        .Println (logLine none (.other msg))], .returned ()⟩ := rfl

theorem handleError_nil :
    handleError (.ptrError none) = ⟨[], .panicked .nilPointerDereference⟩ := rfl

theorem handleError_invalid (v : Error) (h : v.Code < 100 ∨ v.Code > 999) :
    handleError (.ptrError (some v)) = ⟨[], .panicked (.invalidWriteHeaderCode v.Code)⟩ := by
  simp [handleError, assertPtrError, load, WriteHeader, h, bind, Run.bind, Run.pure,
    panicWith]

theorem handleError_valid (v : Error) (h : ¬ (v.Code < 100 ∨ v.Code > 999)) :
    handleError (.ptrError (some v)) =
      ⟨.WriteHeader v.Code ::
          ((if v.Code = 401 then [.Write (str "401 - Unauthorized")]
            else if v.Code = 400 then [.Write (str "400 - Bad Request")] else []) ++
            [.Println (logLine (some v) (.ptrError (some v)))]),
        .returned ()⟩ := by
  by_cases h1 : v.Code = 401
  · simp [handleError, assertPtrError, load, WriteHeader, Write, call, h, h1, bind,
      Run.bind, Run.pure, StatusUnauthorized]
  · by_cases h2 : v.Code = 400
    · simp [handleError, assertPtrError, load, WriteHeader, Write, call, h, h2, bind,
        Run.bind, Run.pure, StatusUnauthorized, StatusBadRequest]
    · simp [handleError, assertPtrError, load, WriteHeader, Write, call, h, h1, h2, bind,
        Run.bind, Run.pure, StatusUnauthorized, StatusBadRequest, pure]

/-- No path through `handleError` invokes the next handler. -/
theorem handleError_nextRequests (e : GoError) : nextRequests (handleError e).calls = [] := by
  cases e with
  | other msg => rw [handleError_other]; rfl
  | ptrError p =>
    cases p with
    | none => rw [handleError_nil]; rfl
    | some v =>
      by_cases h : v.Code < 100 ∨ v.Code > 999
      · rw [handleError_invalid v h]; rfl
      · rw [handleError_valid v h]
        by_cases h1 : v.Code = 401
        · simp [h1, nextRequests]
        · by_cases h2 : v.Code = 400
          · simp [h2, nextRequests]
          · simp [h1, h2, nextRequests]

/-- With both collaborators succeeding, the run is the forwarding run exactly
when some grant allows the request. -/
theorem run_eq_specAllow_iff (helpers : Helpers) (r : Request) (grants : List PathGrant)
    (path : GoString) (hg : helpers.GetUserGrants r = (grants, none))
    (hp : helpers.GetRequestedPath r = (path, none)) :
    CreateFilePermissionsMiddleware helpers r = specAllow r ↔
      ∃ g ∈ grants, specGrantAllows g r.Method path := by
  by_cases h : ∃ g ∈ grants, specGrantAllows g r.Method path
  · exact iff_of_true (run_allow helpers r grants path hg hp h) h
  · rw [run_deny helpers r grants path hg hp h]
    exact iff_of_false (fun he => specAllow_ne_specDeny r he.symm) h

/-- With both collaborators succeeding, the run is the denial run exactly when
no grant allows the request. -/
theorem run_eq_specDeny_iff (helpers : Helpers) (r : Request) (grants : List PathGrant)
    (path : GoString) (hg : helpers.GetUserGrants r = (grants, none))
    (hp : helpers.GetRequestedPath r = (path, none)) :
    CreateFilePermissionsMiddleware helpers r = specDeny r ↔
      ¬ ∃ g ∈ grants, specGrantAllows g r.Method path := by
  by_cases h : ∃ g ∈ grants, specGrantAllows g r.Method path
  · rw [run_allow helpers r grants path hg hp h]
    exact iff_of_false (specAllow_ne_specDeny r) (fun hn => hn h)
  · exact iff_of_true (run_deny helpers r grants path hg hp h) h

/-- The run depends on the helpers only through what they return on the
request. -/
theorem run_eq_succeeding (helpers : Helpers) (r : Request) (grants : List PathGrant)
    (path : GoString) (hg : helpers.GetUserGrants r = (grants, none))
    (hp : helpers.GetRequestedPath r = (path, none)) :
    CreateFilePermissionsMiddleware helpers r =
      CreateFilePermissionsMiddleware (succeeding grants path) r := by
  rw [run_of_success helpers r grants path hg hp,
    run_of_success (succeeding grants path) r grants path rfl rfl]

theorem succeeding_allow_iff (grants : List PathGrant) (path : GoString) (r : Request) :
    CreateFilePermissionsMiddleware (succeeding grants path) r = specAllow r ↔
      ∃ g ∈ grants, specGrantAllows g r.Method path :=
  run_eq_specAllow_iff (succeeding grants path) r grants path rfl rfl

theorem succeeding_deny_iff (grants : List PathGrant) (path : GoString) (r : Request) :
    CreateFilePermissionsMiddleware (succeeding grants path) r = specDeny r ↔
      ¬ ∃ g ∈ grants, specGrantAllows g r.Method path :=
  run_eq_specDeny_iff (succeeding grants path) r grants path rfl rfl

theorem Read_ne_ReadWrite : Read ≠ ReadWrite := by decide

/-- The decision of the loop depends on the grant list only through its set of
grants. -/
theorem allowedLoop_congr (method path : GoString) (gs gs' : List PathGrant)
    (h : ∀ g, g ∈ gs ↔ g ∈ gs') :
    allowedLoop method path gs = allowedLoop method path gs' := by
  rw [Bool.eq_iff_iff, allowedLoop_iff, allowedLoop_iff]
  constructor
  · rintro ⟨g, hmem, hallow⟩
    exact ⟨g, (h g).1 hmem, hallow⟩
  · rintro ⟨g, hmem, hallow⟩
    exact ⟨g, (h g).2 hmem, hallow⟩

theorem succeeding_congr (path : GoString) (r : Request) (gs gs' : List PathGrant)
    (h : ∀ g, g ∈ gs ↔ g ∈ gs') :
    CreateFilePermissionsMiddleware (succeeding gs path) r =
      CreateFilePermissionsMiddleware (succeeding gs' path) r := by
  rw [run_of_success (succeeding gs path) r gs path rfl rfl,
    run_of_success (succeeding gs' path) r gs' path rfl rfl,
    allowedLoop_congr r.Method path gs gs' h]

/-- The status and body written by `handleError` for a `*Error` with a
three-digit code. -/
theorem handleError_valid_response (v : Error) (h : ¬ (v.Code < 100 ∨ v.Code > 999)) :
    headersWritten (handleError (.ptrError (some v))).calls = [v.Code] ∧
      (v.Code = 401 →
        bodyWritten (handleError (.ptrError (some v))).calls = str "401 - Unauthorized") ∧
      (v.Code = 400 →
        bodyWritten (handleError (.ptrError (some v))).calls = str "400 - Bad Request") ∧
      (handleError (.ptrError (some v))).exit = .returned () := by
  rw [handleError_valid v h]
  refine ⟨?_, ?_, ?_, rfl⟩
  · by_cases h1 : v.Code = 401
    · simp [h1, headersWritten]
    · by_cases h2 : v.Code = 400
      · simp [h2, headersWritten]
      · simp [h1, h2, headersWritten]
  · intro h1
    simp [h1, bodyWritten]
  · intro h2
    simp [h2, bodyWritten]

/-! ## The decision -/

/-- Claim C1. When both collaborators succeed, with `grants` and `path`, the
handler forwards the request to the next handler exactly when some grant of
the list has a path that is a prefix of `path` and either the method is `GET`
and the access is `Read` or `ReadWrite`, or the method is one of `POST`,
`PATCH`, `PUT`, `DELETE` and the access is `ReadWrite`; it denies (401 and the
fixed body, next handler not invoked) exactly when there is no such grant. -/
theorem C1_allow_iff_some_grant_allows (helpers : Helpers) (r : Request)
    (grants : List PathGrant) (path : GoString)
    (hg : helpers.GetUserGrants r = (grants, none))
    (hp : helpers.GetRequestedPath r = (path, none)) :
    (CreateFilePermissionsMiddleware helpers r = specAllow r ↔
        ∃ g ∈ grants, specGrantAllows g r.Method path) ∧
      (nextRequests (CreateFilePermissionsMiddleware helpers r).calls ≠ [] ↔
        ∃ g ∈ grants, specGrantAllows g r.Method path) ∧
      (CreateFilePermissionsMiddleware helpers r = specDeny r ↔
        ¬ ∃ g ∈ grants, specGrantAllows g r.Method path) := by
  by_cases h : ∃ g ∈ grants, specGrantAllows g r.Method path
  · rw [run_allow helpers r grants path hg hp h]
    refine ⟨iff_of_true rfl h, iff_of_true ?_ h, iff_of_false (specAllow_ne_specDeny r) ?_⟩
    · simp [specAllow, nextRequests]
    · exact fun hn => hn h
  · rw [run_deny helpers r grants path hg hp h]
    refine ⟨iff_of_false (fun he => specAllow_ne_specDeny r he.symm) h, iff_of_false ?_ h,
      iff_of_true rfl h⟩
    simp [specDeny, nextRequests]

/-- A run of C1: a `Read` grant on `/docs` lets a `GET` of `/docs/readme.md`
through to the next handler. -/
theorem C1_witness :
    CreateFilePermissionsMiddleware
        (succeeding [⟨Read, str "/docs"⟩] (str "/docs/readme.md")) (requestWith "GET")
      = specAllow (requestWith "GET") :=
  (C1_allow_iff_some_grant_allows
      (succeeding [⟨Read, str "/docs"⟩] (str "/docs/readme.md")) (requestWith "GET")
      [⟨Read, str "/docs"⟩] (str "/docs/readme.md") rfl rfl).1.2
    ⟨⟨Read, str "/docs"⟩, List.mem_singleton.2 rfl, by decide⟩

/-- Claim C2. Fail-closed: when the grant list is empty the next handler is
not invoked, whatever the method and whatever the path resolver returns; and
when the path resolver succeeds, with any path, the run is the denial: status
401 and the body `401 - Unauthorized`. -/
theorem C2_empty_grants_deny (helpers : Helpers) (r : Request)
    (hg : helpers.GetUserGrants r = ([], none)) :
    nextRequests (CreateFilePermissionsMiddleware helpers r).calls = [] ∧
      ∀ path, helpers.GetRequestedPath r = (path, none) →
        CreateFilePermissionsMiddleware helpers r = specDeny r ∧
        headersWritten (CreateFilePermissionsMiddleware helpers r).calls = [401] ∧
        bodyWritten (CreateFilePermissionsMiddleware helpers r).calls
          = str "401 - Unauthorized" := by
  have hdeny : ∀ path, helpers.GetRequestedPath r = (path, none) →
      CreateFilePermissionsMiddleware helpers r = specDeny r := by
    intro path hp
    exact run_deny helpers r [] path hg hp (by simp)
  constructor
  · rcases hres : helpers.GetRequestedPath r with ⟨path, _ | e⟩
    · rw [hdeny path hres]; rfl
    · rw [run_of_path_failure helpers r [] path e hg hres]
      simpa [nextRequests] using handleError_nextRequests e
  · intro path hp
    rw [hdeny path hp]
    exact ⟨rfl, rfl, bodyWritten_specDeny r⟩

/-- A run of C2: with no grant, a `GET` of `/anything` is denied. -/
theorem C2_witness :
    CreateFilePermissionsMiddleware (succeeding [] (str "/anything")) (requestWith "GET")
      = specDeny (requestWith "GET") :=
  ((C2_empty_grants_deny (succeeding [] (str "/anything")) (requestWith "GET") rfl).2
    (str "/anything") rfl).1

/-- Claim C3. Prefix semantics without segment boundaries: the single grant
`{Read, p}` allows a `GET` of every path `p ++ s`, and denies every method on
every path of which `p` is not a byte-wise prefix. -/
theorem C3_prefix_semantics (helpers : Helpers) (r : Request) (p : GoString)
    (hg : helpers.GetUserGrants r = ([⟨Read, p⟩], none)) :
    (∀ s, r.Method = MethodGet → helpers.GetRequestedPath r = (p ++ s, none) →
        CreateFilePermissionsMiddleware helpers r = specAllow r) ∧
      (∀ path, ¬ p <+: path → helpers.GetRequestedPath r = (path, none) →
        CreateFilePermissionsMiddleware helpers r = specDeny r) := by
  constructor
  · intro s hm hp
    refine run_allow helpers r _ _ hg hp ⟨⟨Read, p⟩, List.mem_singleton.2 rfl, ?_⟩
    exact ⟨List.prefix_append p s, Or.inl ⟨hm, Or.inl rfl⟩⟩
  · intro path hnp hp
    refine run_deny helpers r _ _ hg hp ?_
    rintro ⟨g, hmem, hpre, _⟩
    rw [List.mem_singleton] at hmem
    subst hmem
    exact hnp hpre

/-- Runs of C3: `{Read, "/a"}` allows `GET` of `/a`, `/ab` and `/a/b`,
`{Read, "/docs"}` allows `GET` of `/docs-private`, and `{Read, "/a"}` denies
`GET` of `/b`, of the empty path and of `/A`. -/
theorem C3_witness :
    (∀ path ∈ [str "/a", str "/ab", str "/a/b"],
        CreateFilePermissionsMiddleware (succeeding [⟨Read, str "/a"⟩] path)
          (requestWith "GET") = specAllow (requestWith "GET")) ∧
      CreateFilePermissionsMiddleware
          (succeeding [⟨Read, str "/docs"⟩] (str "/docs-private")) (requestWith "GET")
        = specAllow (requestWith "GET") ∧
      (∀ path ∈ [str "/b", str "", str "/A"],
        CreateFilePermissionsMiddleware (succeeding [⟨Read, str "/a"⟩] path)
          (requestWith "GET") = specDeny (requestWith "GET")) := by
  refine ⟨?_, ?_, ?_⟩
  · intro path hmem
    have hs : ∃ s, path = str "/a" ++ s := by
      simp only [List.mem_cons, List.mem_singleton, List.not_mem_nil, or_false] at hmem
      rcases hmem with h | h | h
      · exact ⟨[], by rw [h]; decide⟩
      · exact ⟨str "b", by rw [h]; decide⟩
      · exact ⟨str "/b", by rw [h]; decide⟩
    obtain ⟨s, rfl⟩ := hs
    exact (C3_prefix_semantics _ (requestWith "GET") (str "/a") rfl).1 s rfl rfl
  · exact (C3_prefix_semantics
      (succeeding [⟨Read, str "/docs"⟩] (str "/docs-private")) (requestWith "GET")
      (str "/docs") rfl).1 (str "-private") rfl rfl
  · intro path hmem
    refine (C3_prefix_semantics _ (requestWith "GET") (str "/a") rfl).2 path ?_ rfl
    simp only [List.mem_cons, List.mem_singleton, List.not_mem_nil, or_false] at hmem
    rcases hmem with h | h | h <;> rw [h] <;> decide

/-- Claim C4. Access monotonicity: replacing, anywhere in a grant list, a grant
`{Read, p}` by `{ReadWrite, p}` keeps every allowed request allowed; a
`ReadWrite` grant whose path is a prefix of the requested path allows `GET`,
`POST`, `PATCH`, `PUT` and `DELETE`; and a list in which every grant has
access `Read` denies every `POST`, `PATCH`, `PUT` and `DELETE`, whatever the
path. -/
theorem C4_access_monotonicity :
    (∀ (l₁ l₂ : List PathGrant) (p path : GoString) (r : Request),
        CreateFilePermissionsMiddleware (succeeding (l₁ ++ ⟨Read, p⟩ :: l₂) path) r
          = specAllow r →
        CreateFilePermissionsMiddleware (succeeding (l₁ ++ ⟨ReadWrite, p⟩ :: l₂) path) r
          = specAllow r) ∧
      (∀ (grants : List PathGrant) (p path : GoString) (r : Request),
        ⟨ReadWrite, p⟩ ∈ grants → p <+: path →
        r.Method ∈ [MethodGet, MethodPost, MethodPatch, MethodPut, MethodDelete] →
        CreateFilePermissionsMiddleware (succeeding grants path) r = specAllow r) ∧
      (∀ (grants : List PathGrant) (path : GoString) (r : Request),
        (∀ g ∈ grants, g.Access = Read) →
        r.Method ∈ [MethodPost, MethodPatch, MethodPut, MethodDelete] →
        CreateFilePermissionsMiddleware (succeeding grants path) r = specDeny r) := by
  refine ⟨?_, ?_, ?_⟩
  · intro l₁ l₂ p path r h
    rw [succeeding_allow_iff] at h ⊢
    obtain ⟨g, hmem, hallow⟩ := h
    rw [List.mem_append, List.mem_cons] at hmem
    rcases hmem with hmem | rfl | hmem
    · exact ⟨g, by simp [hmem], hallow⟩
    · refine ⟨⟨ReadWrite, p⟩, by simp, hallow.1, ?_⟩
      rcases hallow.2 with ⟨hm, _⟩ | ⟨_, hrw⟩
      · exact Or.inl ⟨hm, Or.inr rfl⟩
      · exact absurd hrw Read_ne_ReadWrite
    · exact ⟨g, by simp [hmem], hallow⟩
  · intro grants p path r hmem hpre hm
    rw [succeeding_allow_iff]
    refine ⟨⟨ReadWrite, p⟩, hmem, hpre, ?_⟩
    simp only [List.mem_cons, List.mem_singleton, List.not_mem_nil, or_false] at hm
    rcases hm with hm | hm
    · exact Or.inl ⟨hm, Or.inr rfl⟩
    · exact Or.inr ⟨hm, rfl⟩
  · intro grants path r hread hm
    rw [succeeding_deny_iff]
    rintro ⟨g, hmem, _, ⟨hget, _⟩ | ⟨_, hrw⟩⟩
    · rw [hget] at hm
      revert hm
      decide
    · rw [hread g hmem] at hrw
      exact Read_ne_ReadWrite hrw

/-- Runs of C4: on `/docs/readme.md`, `{Read, "/docs"}` allows `GET` and
denies `POST`, and `{ReadWrite, "/docs"}` allows both. -/
theorem C4_witness :
    CreateFilePermissionsMiddleware
        (succeeding [⟨ReadWrite, str "/docs"⟩] (str "/docs/readme.md")) (requestWith "GET")
      = specAllow (requestWith "GET") ∧
    CreateFilePermissionsMiddleware
        (succeeding [⟨ReadWrite, str "/docs"⟩] (str "/docs/readme.md")) (requestWith "POST")
      = specAllow (requestWith "POST") ∧
    CreateFilePermissionsMiddleware
        (succeeding [⟨Read, str "/docs"⟩] (str "/docs/readme.md")) (requestWith "POST")
      = specDeny (requestWith "POST") :=
  ⟨C4_access_monotonicity.1 [] [] (str "/docs") (str "/docs/readme.md") (requestWith "GET")
      (by decide),
    C4_access_monotonicity.2.1 _ (str "/docs") _ (requestWith "POST")
      (List.mem_singleton.2 rfl) (by decide) (by decide),
    C4_access_monotonicity.2.2 _ _ (requestWith "POST") (by decide) (by decide)⟩

/-- Claim C5. Unmatchable method: when the method is none of `GET`, `POST`,
`PATCH`, `PUT`, `DELETE` (byte for byte), the request is denied for every
grant list and every path. -/
theorem C5_unmatchable_method_denied (helpers : Helpers) (r : Request)
    (grants : List PathGrant) (path : GoString)
    (hg : helpers.GetUserGrants r = (grants, none))
    (hp : helpers.GetRequestedPath r = (path, none))
    (hm : r.Method ∉ [MethodGet, MethodPost, MethodPatch, MethodPut, MethodDelete]) :
    CreateFilePermissionsMiddleware helpers r = specDeny r := by
  refine run_deny helpers r grants path hg hp ?_
  simp only [List.mem_cons, List.mem_singleton, List.not_mem_nil, or_false, not_or] at hm
  rintro ⟨g, _, _, ⟨hget, _⟩ | ⟨hw, _⟩⟩
  · exact hm.1 hget
  · rcases hw with h | h | h | h
    · exact hm.2.1 h
    · exact hm.2.2.1 h
    · exact hm.2.2.2.1 h
    · exact hm.2.2.2.2 h

/-- Runs of C5: with the grant `{ReadWrite, "/"}`, the methods `HEAD`,
`OPTIONS`, `get` and the empty method are denied on `/docs/readme.md`. -/
theorem C5_witness :
    (CreateFilePermissionsMiddleware
        (succeeding [⟨ReadWrite, str "/"⟩] (str "/docs/readme.md")) (requestWith "HEAD")
      = specDeny (requestWith "HEAD")) ∧
    (CreateFilePermissionsMiddleware
        (succeeding [⟨ReadWrite, str "/"⟩] (str "/docs/readme.md")) (requestWith "OPTIONS")
      = specDeny (requestWith "OPTIONS")) ∧
    (CreateFilePermissionsMiddleware
        (succeeding [⟨ReadWrite, str "/"⟩] (str "/docs/readme.md")) (requestWith "get")
      = specDeny (requestWith "get")) ∧
    (CreateFilePermissionsMiddleware
        (succeeding [⟨ReadWrite, str "/"⟩] (str "/docs/readme.md")) (requestWith "")
      = specDeny (requestWith "")) :=
  ⟨C5_unmatchable_method_denied _ (requestWith "HEAD") [⟨ReadWrite, str "/"⟩]
      (str "/docs/readme.md") rfl rfl (by decide),
    C5_unmatchable_method_denied _ (requestWith "OPTIONS") [⟨ReadWrite, str "/"⟩]
      (str "/docs/readme.md") rfl rfl (by decide),
    C5_unmatchable_method_denied _ (requestWith "get") [⟨ReadWrite, str "/"⟩]
      (str "/docs/readme.md") rfl rfl (by decide),
    C5_unmatchable_method_denied _ (requestWith "") [⟨ReadWrite, str "/"⟩]
      (str "/docs/readme.md") rfl rfl (by decide)⟩

/-! ## The gate -/

/-- Claim C6. Collaborator failure short-circuits: when `GetUserGrants`
returns a non-nil error `e` (with any grants), the run is the call of
`GetUserGrants` followed by `handleError e`; when `GetUserGrants` succeeds and
`GetRequestedPath` returns a non-nil error `e` (with any path), the run is the
two helper calls followed by `handleError e`.  In both cases the run does not
depend on the grants, the path or the method, and the next handler is not
invoked. -/
theorem C6_collaborator_failure_short_circuits (helpers : Helpers) (r : Request)
    (grants : List PathGrant) (path : GoString) (e : GoError) :
    (helpers.GetUserGrants r = (grants, some e) →
        CreateFilePermissionsMiddleware helpers r
          = ⟨.GetUserGrants r :: (handleError e).calls, (handleError e).exit⟩ ∧
        nextRequests (CreateFilePermissionsMiddleware helpers r).calls = []) ∧
      (helpers.GetUserGrants r = (grants, none) →
        helpers.GetRequestedPath r = (path, some e) →
        CreateFilePermissionsMiddleware helpers r
          = ⟨.GetUserGrants r :: .GetRequestedPath r :: (handleError e).calls,
              (handleError e).exit⟩ ∧
        nextRequests (CreateFilePermissionsMiddleware helpers r).calls = []) := by
  constructor
  · intro hg
    rw [run_of_grant_failure helpers r grants e hg]
    exact ⟨rfl, by simpa [nextRequests] using handleError_nextRequests e⟩
  · intro hg hp
    rw [run_of_path_failure helpers r grants path e hg hp]
    exact ⟨rfl, by simpa [nextRequests] using handleError_nextRequests e⟩

/-- Runs of C6: with a grant `{ReadWrite, "/"}` that would allow the request,
a grant source failing with an unclassified error, and a path resolver failing
with code 400, each end in the error response without a call of the next
handler. -/
theorem C6_witness :
    CreateFilePermissionsMiddleware
        (constHelpers ([⟨ReadWrite, str "/"⟩], some (.other (str "db down")))
          (str "/docs", none)) (requestWith "GET")
      = ⟨[.GetUserGrants (requestWith "GET"), .WriteHeader 500,
          .Write (str "internal server error"),
          .Println (str "error in file permissions middleware: <nil> db down\n")],
        .returned ()⟩ ∧
    CreateFilePermissionsMiddleware
        (constHelpers ([⟨ReadWrite, str "/"⟩], none)
          (str "/docs", some (.ptrError (some ⟨400, str "bad path"⟩)))) (requestWith "GET")
      = ⟨[.GetUserGrants (requestWith "GET"), .GetRequestedPath (requestWith "GET"),
          .WriteHeader 400, .Write (str "400 - Bad Request"),
          .Println (str "error in file permissions middleware: bad path bad path\n")],
        .returned ()⟩ :=
  ⟨((C6_collaborator_failure_short_circuits _ (requestWith "GET") [⟨ReadWrite, str "/"⟩]
      (str "/docs") (.other (str "db down"))).1 rfl).1.trans (by decide),
    ((C6_collaborator_failure_short_circuits _ (requestWith "GET") [⟨ReadWrite, str "/"⟩]
      (str "/docs") (.ptrError (some ⟨400, str "bad path"⟩))).2 rfl rfl).1.trans
      (by decide)⟩

/-- Claim C7. Allow forwards unmodified: when both collaborators succeed and
some grant allows the request, the run is the two helper calls followed by one
call of the next handler, with the request that entered the handler; the
handler writes no status and no body. -/
theorem C7_allow_forwards_unmodified (helpers : Helpers) (r : Request)
    (grants : List PathGrant) (path : GoString)
    (hg : helpers.GetUserGrants r = (grants, none))
    (hp : helpers.GetRequestedPath r = (path, none))
    (hallow : ∃ g ∈ grants, specGrantAllows g r.Method path) :
    CreateFilePermissionsMiddleware helpers r
        = ⟨[.GetUserGrants r, .GetRequestedPath r, .ServeHTTP r], .returned ()⟩ ∧
      nextRequests (CreateFilePermissionsMiddleware helpers r).calls = [r] ∧
      headersWritten (CreateFilePermissionsMiddleware helpers r).calls = [] ∧
      bodyWritten (CreateFilePermissionsMiddleware helpers r).calls = [] := by
  rw [run_allow helpers r grants path hg hp hallow]
  exact ⟨rfl, rfl, rfl, rfl⟩

/-- A run of C7: the `GET` request allowed by `{ReadWrite, "/docs"}` reaches
the next handler with its method, URL, header and body as they came in. -/
theorem C7_witness :
    nextRequests (CreateFilePermissionsMiddleware
        (succeeding [⟨ReadWrite, str "/docs"⟩] (str "/docs/readme.md"))
        (requestWith "GET")).calls
      = [⟨str "GET", str "/files?id=7", [(str "Accept", str "*/*")], str "payload"⟩] :=
  (C7_allow_forwards_unmodified _ (requestWith "GET") [⟨ReadWrite, str "/docs"⟩]
    (str "/docs/readme.md") rfl rfl
    ⟨⟨ReadWrite, str "/docs"⟩, List.mem_singleton.2 rfl, by decide⟩).2.1

/-- Claim C8. Order and duplicate independence: for every path and request,
the run on a grant list equals the run on any permutation of it, on the list
with a copy of one of its grants inserted anywhere, and on the list with its
duplicates removed; the loop agrees with existential matching, and a first
matching grant with insufficient access does not stop a later sufficient
grant from allowing. -/
theorem C8_order_and_duplicate_independence (path : GoString) (r : Request) :
    (∀ gs gs' : List PathGrant, gs.Perm gs' →
        CreateFilePermissionsMiddleware (succeeding gs path) r
          = CreateFilePermissionsMiddleware (succeeding gs' path) r) ∧
      (∀ (l₁ l₂ : List PathGrant) (g : PathGrant), g ∈ l₁ ++ l₂ →
        CreateFilePermissionsMiddleware (succeeding (l₁ ++ g :: l₂) path) r
          = CreateFilePermissionsMiddleware (succeeding (l₁ ++ l₂) path) r) ∧
      (∀ gs : List PathGrant,
        CreateFilePermissionsMiddleware (succeeding gs.dedup path) r
          = CreateFilePermissionsMiddleware (succeeding gs path) r) ∧
      (∀ gs : List PathGrant,
        CreateFilePermissionsMiddleware (succeeding gs path) r = specAllow r ↔
          ∃ g ∈ gs, specGrantAllows g r.Method path) ∧
      (∀ p : GoString, p <+: path →
        r.Method ∈ [MethodPost, MethodPatch, MethodPut, MethodDelete] →
        CreateFilePermissionsMiddleware
            (succeeding [⟨Read, p⟩, ⟨ReadWrite, p⟩] path) r = specAllow r) := by
  refine ⟨?_, ?_, ?_, ?_, ?_⟩
  · intro gs gs' hperm
    exact succeeding_congr path r gs gs' (fun g => hperm.mem_iff)
  · intro l₁ l₂ g hmem
    refine succeeding_congr path r _ _ (fun x => ?_)
    rw [List.mem_append] at hmem
    simp only [List.mem_append, List.mem_cons]
    constructor
    · rintro (h | rfl | h)
      · exact Or.inl h
      · exact hmem
      · exact Or.inr h
    · rintro (h | h)
      · exact Or.inl h
      · exact Or.inr (Or.inr h)
  · intro gs
    exact succeeding_congr path r _ _ (fun g => List.mem_dedup)
  · intro gs
    exact succeeding_allow_iff gs path r
  · intro p hpre hm
    rw [succeeding_allow_iff]
    exact ⟨⟨ReadWrite, p⟩, by simp, hpre, Or.inr ⟨by simpa using hm, rfl⟩⟩

/-- Runs of C8: a `POST` of `/docs/readme.md` is allowed by
`[{Read, "/docs"}, {ReadWrite, "/docs"}]`, in this order, in the reverse
order, and with the first grant repeated. -/
theorem C8_witness :
    CreateFilePermissionsMiddleware
        (succeeding [⟨Read, str "/docs"⟩, ⟨ReadWrite, str "/docs"⟩] (str "/docs/readme.md"))
        (requestWith "POST") = specAllow (requestWith "POST") ∧
    CreateFilePermissionsMiddleware
        (succeeding [⟨ReadWrite, str "/docs"⟩, ⟨Read, str "/docs"⟩] (str "/docs/readme.md"))
        (requestWith "POST") = specAllow (requestWith "POST") ∧
    CreateFilePermissionsMiddleware
        (succeeding [⟨Read, str "/docs"⟩, ⟨Read, str "/docs"⟩, ⟨ReadWrite, str "/docs"⟩]
          (str "/docs/readme.md"))
        (requestWith "POST") = specAllow (requestWith "POST") := by
  have h := C8_order_and_duplicate_independence (str "/docs/readme.md") (requestWith "POST")
  have h0 := h.2.2.2.2 (str "/docs") (by decide) (by decide)
  refine ⟨h0, ?_, ?_⟩
  · rw [← h.1 [⟨Read, str "/docs"⟩, ⟨ReadWrite, str "/docs"⟩] _ (List.Perm.swap _ _ _)]
    exact h0
  · exact (h.2.1 [⟨Read, str "/docs"⟩] [⟨ReadWrite, str "/docs"⟩] ⟨Read, str "/docs"⟩
      (by simp)).trans h0

/-- Claim C9. Denial response: when both collaborators succeed and no grant
allows the request, the handler writes status 401 and the body
`401 - Unauthorized`, returns, and does not invoke the next handler. -/
theorem C9_denial_response (helpers : Helpers) (r : Request)
    (grants : List PathGrant) (path : GoString)
    (hg : helpers.GetUserGrants r = (grants, none))
    (hp : helpers.GetRequestedPath r = (path, none))
    (hdeny : ¬ ∃ g ∈ grants, specGrantAllows g r.Method path) :
    headersWritten (CreateFilePermissionsMiddleware helpers r).calls = [401] ∧
      bodyWritten (CreateFilePermissionsMiddleware helpers r).calls
        = str "401 - Unauthorized" ∧
      nextRequests (CreateFilePermissionsMiddleware helpers r).calls = [] ∧
      (CreateFilePermissionsMiddleware helpers r).exit = .returned () := by
  rw [run_deny helpers r grants path hg hp hdeny]
  exact ⟨rfl, bodyWritten_specDeny r, rfl, rfl⟩

/-- A run of C9: with the grants `[{Read, "/docs"}]`, a `POST` of
`/docs/readme.md` gets status 401 and the body `401 - Unauthorized`, and the
next handler is not invoked. -/
theorem C9_witness :
    headersWritten (CreateFilePermissionsMiddleware
        (succeeding [⟨Read, str "/docs"⟩] (str "/docs/readme.md"))
        (requestWith "POST")).calls = [401] ∧
      bodyWritten (CreateFilePermissionsMiddleware
        (succeeding [⟨Read, str "/docs"⟩] (str "/docs/readme.md"))
        (requestWith "POST")).calls = str "401 - Unauthorized" ∧
      nextRequests (CreateFilePermissionsMiddleware
        (succeeding [⟨Read, str "/docs"⟩] (str "/docs/readme.md"))
        (requestWith "POST")).calls = [] ∧
      (CreateFilePermissionsMiddleware
        (succeeding [⟨Read, str "/docs"⟩] (str "/docs/readme.md"))
        (requestWith "POST")).exit = .returned () :=
  C9_denial_response _ (requestWith "POST") [⟨Read, str "/docs"⟩] (str "/docs/readme.md")
    rfl rfl (by decide)

/-! ## Error responses -/

/-- The response status after `handleError` for a `*Error` whose code is a
final status of `net/http`: 101, or 200 to 999. -/
theorem handleError_final_status (v : Error)
    (h : v.Code = 101 ∨ (200 ≤ v.Code ∧ v.Code ≤ 999)) (pre : List Call)
    (hpre : ∀ cs, statusOfCalls (pre ++ cs) = statusOfCalls cs) :
    responseStatus ⟨pre ++ (handleError (.ptrError (some v))).calls,
      (handleError (.ptrError (some v))).exit⟩ = some v.Code := by
  have hv : ¬ (v.Code < 100 ∨ v.Code > 999) := by omega
  have hi : interimStatus v.Code = false := by
    unfold interimStatus
    rw [decide_eq_false_iff_not]
    omega
  rw [handleError_valid v hv]
  simp [responseStatus, hpre, statusOfCalls, hi]

/-- Claim C10, as stated, fails.  A path resolver failing with a `*Error` of
code 0 makes `w.WriteHeader(0)` panic, so no status is written, and the status
written is not 0.  A grant source failing with a `*Error` of code 103 has 103
sent as an interim header only: the status of the response is 200. -/
theorem C10_counterexample :
    headersWritten (CreateFilePermissionsMiddleware
        (constHelpers ([], none) (str "/docs", some (.ptrError (some ⟨0, str "bad"⟩))))
        (requestWith "GET")).calls = [] ∧
      (CreateFilePermissionsMiddleware
        (constHelpers ([], none) (str "/docs", some (.ptrError (some ⟨0, str "bad"⟩))))
        (requestWith "GET")).exit = .panicked (.invalidWriteHeaderCode 0) ∧
      ¬ headersWritten (CreateFilePermissionsMiddleware
        (constHelpers ([], none) (str "/docs", some (.ptrError (some ⟨0, str "bad"⟩))))
        (requestWith "GET")).calls = [0] ∧
      responseStatus (CreateFilePermissionsMiddleware
        (constHelpers ([], none) (str "/docs", some (.ptrError (some ⟨0, str "bad"⟩))))
        (requestWith "GET")) = none ∧
      responseStatus (CreateFilePermissionsMiddleware
        (constHelpers ([], some (.ptrError (some ⟨103, str "hint"⟩))) (str "/docs", none))
        (requestWith "GET")) = some 200 :=
  ⟨by decide, by decide, by decide, by decide, by decide⟩

/-- Claim C10, amended. A collaborator failure that is a non-nil `*Error` with
a code `c` that `net/http` sends as the status of the response (101, or 200
to 999) keeps its status: the handler passes exactly `c` to `w.WriteHeader`,
the status of the response is `c`, and the handler returns without invoking
the next handler; when `c` is 401 the body is `401 - Unauthorized`, and when
`c` is 400 the body is `400 - Bad Request`. -/
theorem C10_classified_error_keeps_status (helpers : Helpers) (r : Request)
    (c : Int) (msg : GoString) (hc : c = 101 ∨ (200 ≤ c ∧ c ≤ 999))
    (hfail : (∃ grants, helpers.GetUserGrants r
          = (grants, some (.ptrError (some ⟨c, msg⟩)))) ∨
        (∃ grants path, helpers.GetUserGrants r = (grants, none) ∧
          helpers.GetRequestedPath r = (path, some (.ptrError (some ⟨c, msg⟩))))) :
    responseStatus (CreateFilePermissionsMiddleware helpers r) = some c ∧
      headersWritten (CreateFilePermissionsMiddleware helpers r).calls = [c] ∧
      (c = 401 → bodyWritten (CreateFilePermissionsMiddleware helpers r).calls
        = str "401 - Unauthorized") ∧
      (c = 400 → bodyWritten (CreateFilePermissionsMiddleware helpers r).calls
        = str "400 - Bad Request") ∧
      nextRequests (CreateFilePermissionsMiddleware helpers r).calls = [] ∧
      (CreateFilePermissionsMiddleware helpers r).exit = .returned () := by
  have hv : ¬ ((⟨c, msg⟩ : Error).Code < 100 ∨ (⟨c, msg⟩ : Error).Code > 999) := by
    simp only [not_or, not_lt, gt_iff_lt]
    omega
  obtain ⟨h1, h2, h3, h4⟩ := handleError_valid_response ⟨c, msg⟩ hv
  have hn := handleError_nextRequests (.ptrError (some ⟨c, msg⟩))
  rcases hfail with ⟨grants, hg⟩ | ⟨grants, path, hg, hp⟩
  · rw [run_of_grant_failure helpers r grants _ hg]
    refine ⟨?_, by simpa [headersWritten] using h1, by simpa [bodyWritten] using h2,
      by simpa [bodyWritten] using h3, by simpa [nextRequests] using hn, h4⟩
    exact handleError_final_status ⟨c, msg⟩ hc [.GetUserGrants r] (fun cs => rfl)
  · rw [run_of_path_failure helpers r grants path _ hg hp]
    refine ⟨?_, by simpa [headersWritten] using h1, by simpa [bodyWritten] using h2,
      by simpa [bodyWritten] using h3, by simpa [nextRequests] using hn, h4⟩
    exact handleError_final_status ⟨c, msg⟩ hc [.GetUserGrants r, .GetRequestedPath r]
      (fun cs => rfl)

/-- A run of C10: a path resolver failing with code 400 gets the response
status 400 and the body `400 - Bad Request`. -/
theorem C10_witness :
    responseStatus (CreateFilePermissionsMiddleware
        (constHelpers ([⟨ReadWrite, str "/"⟩], none)
          (str "", some (.ptrError (some ⟨400, str "bad path"⟩))))
        (requestWith "GET")) = some 400 ∧
      headersWritten (CreateFilePermissionsMiddleware
        (constHelpers ([⟨ReadWrite, str "/"⟩], none)
          (str "", some (.ptrError (some ⟨400, str "bad path"⟩))))
        (requestWith "GET")).calls = [400] ∧
      bodyWritten (CreateFilePermissionsMiddleware
        (constHelpers ([⟨ReadWrite, str "/"⟩], none)
          (str "", some (.ptrError (some ⟨400, str "bad path"⟩))))
        (requestWith "GET")).calls = str "400 - Bad Request" :=
  have h := C10_classified_error_keeps_status
    (constHelpers ([⟨ReadWrite, str "/"⟩], none)
      (str "", some (.ptrError (some ⟨400, str "bad path"⟩))))
    (requestWith "GET") 400 (str "bad path") (by decide) (Or.inr ⟨_, _, rfl, rfl⟩)
  ⟨h.1, h.2.1, h.2.2.2.1 rfl⟩

/-- What the handler writes when a collaborator fails with `e` is what
`handleError e` writes; the helper calls in front add nothing to it. -/
theorem run_of_failure_response (helpers : Helpers) (r : Request) (e : GoError)
    (hfail : (∃ grants, helpers.GetUserGrants r = (grants, some e)) ∨
        (∃ grants path, helpers.GetUserGrants r = (grants, none) ∧
          helpers.GetRequestedPath r = (path, some e))) :
    headersWritten (CreateFilePermissionsMiddleware helpers r).calls
        = headersWritten (handleError e).calls ∧
      bodyWritten (CreateFilePermissionsMiddleware helpers r).calls
        = bodyWritten (handleError e).calls ∧
      (∀ b, Call.Write b ∈ (CreateFilePermissionsMiddleware helpers r).calls ↔
        Call.Write b ∈ (handleError e).calls) ∧
      nextRequests (CreateFilePermissionsMiddleware helpers r).calls = [] ∧
      (CreateFilePermissionsMiddleware helpers r).exit = (handleError e).exit := by
  have hn := handleError_nextRequests e
  rcases hfail with ⟨grants, hg⟩ | ⟨grants, path, hg, hp⟩
  · rw [run_of_grant_failure helpers r grants e hg]
    exact ⟨by simp [headersWritten], by simp [bodyWritten], by simp,
      by simpa [nextRequests] using hn, rfl⟩
  · rw [run_of_path_failure helpers r grants path e hg hp]
    exact ⟨by simp [headersWritten], by simp [bodyWritten], by simp,
      by simpa [nextRequests] using hn, rfl⟩

/-- For a `*Error` whose code is neither 401 nor 400, `handleError` makes no
call of `w.Write`. -/
theorem handleError_no_body (v : Error) (h1 : v.Code ≠ 401) (h0 : v.Code ≠ 400) :
    bodyWritten (handleError (.ptrError (some v))).calls = [] ∧
      ∀ b, Call.Write b ∉ (handleError (.ptrError (some v))).calls := by
  by_cases h : v.Code < 100 ∨ v.Code > 999
  · rw [handleError_invalid v h]
    exact ⟨rfl, fun b hb => by simp at hb⟩
  · rw [handleError_valid v h]
    simp [h1, h0, bodyWritten]

/-- Claim C11, as stated, fails: a path resolver failing with a `*Error` of
code 403, and a grant source failing with one of code 404, get the status and
an empty body; no call of `w.Write` is made. -/
theorem C11_counterexample :
    CreateFilePermissionsMiddleware
        (constHelpers ([⟨ReadWrite, str "/"⟩], none)
          (str "/docs", some (.ptrError (some ⟨403, str "denied"⟩))))
        (requestWith "GET")
      = ⟨[.GetUserGrants (requestWith "GET"), .GetRequestedPath (requestWith "GET"),
          .WriteHeader 403,
          .Println (str "error in file permissions middleware: denied denied\n")],
        .returned ()⟩ ∧
      bodyWritten (CreateFilePermissionsMiddleware
        (constHelpers ([⟨ReadWrite, str "/"⟩], none)
          (str "/docs", some (.ptrError (some ⟨403, str "denied"⟩))))
        (requestWith "GET")).calls = [] ∧
      bodyWritten (CreateFilePermissionsMiddleware
        (constHelpers ([], some (.ptrError (some ⟨404, str "no such user"⟩)))
          (str "/docs", none))
        (requestWith "GET")).calls = [] :=
  ⟨by decide, by decide, by decide⟩

/-- Claim C11, amended. For a collaborator failure that is a non-nil `*Error`
whose code `c` is neither 401 nor 400, the handler writes no body (it makes no
call of `w.Write`, so the response body is empty) and does not invoke the next
handler; when `c` has three digits (100 to 999) it writes exactly the status
`c` and returns. -/
theorem C11_other_status_has_empty_body (helpers : Helpers) (r : Request)
    (c : Int) (msg : GoString) (h1 : c ≠ 401) (h0 : c ≠ 400)
    (hfail : (∃ grants, helpers.GetUserGrants r
          = (grants, some (.ptrError (some ⟨c, msg⟩)))) ∨
        (∃ grants path, helpers.GetUserGrants r = (grants, none) ∧
          helpers.GetRequestedPath r = (path, some (.ptrError (some ⟨c, msg⟩))))) :
    bodyWritten (CreateFilePermissionsMiddleware helpers r).calls = [] ∧
      (∀ b, Call.Write b ∉ (CreateFilePermissionsMiddleware helpers r).calls) ∧
      nextRequests (CreateFilePermissionsMiddleware helpers r).calls = [] ∧
      (100 ≤ c ∧ c ≤ 999 →
        headersWritten (CreateFilePermissionsMiddleware helpers r).calls = [c] ∧
        (CreateFilePermissionsMiddleware helpers r).exit = .returned ()) := by
  obtain ⟨hh, hb, hw, hn, hx⟩ := run_of_failure_response helpers r _ hfail
  obtain ⟨hb0, hw0⟩ := handleError_no_body ⟨c, msg⟩ h1 h0
  refine ⟨hb.trans hb0, fun b hb' => hw0 b ((hw b).1 hb'), hn, ?_⟩
  intro hc
  have hv : ¬ ((⟨c, msg⟩ : Error).Code < 100 ∨ (⟨c, msg⟩ : Error).Code > 999) := by
    simp only [not_or, not_lt, gt_iff_lt]
    exact hc
  obtain ⟨k1, _, _, k4⟩ := handleError_valid_response ⟨c, msg⟩ hv
  exact ⟨hh.trans k1, hx.trans k4⟩

/-- A run of C11: a path resolver failing with code 404 gets the status 404
and an empty body. -/
theorem C11_witness :
    bodyWritten (CreateFilePermissionsMiddleware
        (constHelpers ([⟨ReadWrite, str "/"⟩], none)
          (str "/docs", some (.ptrError (some ⟨404, str "not found"⟩))))
        (requestWith "GET")).calls = [] ∧
      headersWritten (CreateFilePermissionsMiddleware
        (constHelpers ([⟨ReadWrite, str "/"⟩], none)
          (str "/docs", some (.ptrError (some ⟨404, str "not found"⟩))))
        (requestWith "GET")).calls = [404] :=
  have h := C11_other_status_has_empty_body
    (constHelpers ([⟨ReadWrite, str "/"⟩], none)
      (str "/docs", some (.ptrError (some ⟨404, str "not found"⟩))))
    (requestWith "GET") 404 (str "not found") (by decide) (by decide)
    (Or.inr ⟨_, _, rfl, rfl⟩)
  ⟨h.1, (h.2.2.2 (by decide)).1⟩

/-- The status and body written by `handleError` for an error that is not a
`*Error`. -/
theorem handleError_other_response (msg : GoString) :
    headersWritten (handleError (.other msg)).calls = [500] ∧
      bodyWritten (handleError (.other msg)).calls = str "internal server error" ∧
      (handleError (.other msg)).exit = .returned () := by
  rw [handleError_other]
  exact ⟨rfl, by simp [bodyWritten], rfl⟩

/-- Claim C12. Unclassified collaborator error: when a collaborator fails with
an error that is not a `*Error`, the handler writes the status 500 and the
body `internal server error`, returns, and does not invoke the next handler;
status and body are the same for every message of the error. -/
theorem C12_unclassified_error_response (helpers : Helpers) (r : Request)
    (msg : GoString)
    (hfail : (∃ grants, helpers.GetUserGrants r = (grants, some (.other msg))) ∨
        (∃ grants path, helpers.GetUserGrants r = (grants, none) ∧
          helpers.GetRequestedPath r = (path, some (.other msg)))) :
    headersWritten (CreateFilePermissionsMiddleware helpers r).calls = [500] ∧
      bodyWritten (CreateFilePermissionsMiddleware helpers r).calls
        = str "internal server error" ∧
      nextRequests (CreateFilePermissionsMiddleware helpers r).calls = [] ∧
      (CreateFilePermissionsMiddleware helpers r).exit = .returned () := by
  obtain ⟨hh, hb, _, hn, hx⟩ := run_of_failure_response helpers r _ hfail
  obtain ⟨k1, k2, k3⟩ := handleError_other_response msg
  exact ⟨hh.trans k1, hb.trans k2, hn, hx.trans k3⟩

/-- A run of C12: a grant source failing with an error whose message names a
database host gets the status 500 and the body `internal server error`. -/
theorem C12_witness :
    headersWritten (CreateFilePermissionsMiddleware
        (constHelpers ([], some (.other (str "dial tcp db-7.internal:5432: refused")))
          (str "/docs", none))
        (requestWith "GET")).calls = [500] ∧
      bodyWritten (CreateFilePermissionsMiddleware
        (constHelpers ([], some (.other (str "dial tcp db-7.internal:5432: refused")))
          (str "/docs", none))
        (requestWith "GET")).calls = str "internal server error" :=
  have h := C12_unclassified_error_response
    (constHelpers ([], some (.other (str "dial tcp db-7.internal:5432: refused")))
      (str "/docs", none))
    (requestWith "GET") (str "dial tcp db-7.internal:5432: refused") (Or.inl ⟨_, rfl⟩)
  ⟨h.1, h.2.1⟩

/-- Claim C13 fails on the code: the handler panics on two results a
collaborator can return.  A non-nil `error` that holds a nil `*Error` pointer
passes the type assertion and `err.Code` dereferences the nil pointer; a
`*Error` whose code is 1000, or -1, is handed to `w.WriteHeader`, which panics
on a code that has not three digits.  In each case nothing is written to the
response. -/
theorem C13_panics_on_nil_pointer_and_invalid_code :
    CreateFilePermissionsMiddleware
        (constHelpers ([], some (.ptrError none)) (str "/docs", none)) (requestWith "GET")
      = ⟨[.GetUserGrants (requestWith "GET")], .panicked .nilPointerDereference⟩ ∧
    CreateFilePermissionsMiddleware
        (constHelpers ([], none) (str "/docs", some (.ptrError none))) (requestWith "GET")
      = ⟨[.GetUserGrants (requestWith "GET"), .GetRequestedPath (requestWith "GET")],
          .panicked .nilPointerDereference⟩ ∧
    CreateFilePermissionsMiddleware
        (constHelpers ([], some (.ptrError (some ⟨1000, str "x"⟩))) (str "/docs", none))
        (requestWith "GET")
      = ⟨[.GetUserGrants (requestWith "GET")], .panicked (.invalidWriteHeaderCode 1000)⟩ ∧
    CreateFilePermissionsMiddleware
        (constHelpers ([], some (.ptrError (some ⟨-1, str "x"⟩))) (str "/docs", none))
        (requestWith "GET")
      = ⟨[.GetUserGrants (requestWith "GET")], .panicked (.invalidWriteHeaderCode (-1))⟩ :=
  ⟨by decide, by decide, by decide, by decide⟩

/-! ## Further properties of the decision -/

/-- With both collaborators succeeding, two grant lists on which the same
requests find an allowing grant give the same run. -/
theorem succeeding_eq_of_exists_iff (path : GoString) (r : Request) (gs gs' : List PathGrant)
    (h : (∃ g ∈ gs, specGrantAllows g r.Method path) ↔
      (∃ g ∈ gs', specGrantAllows g r.Method path)) :
    CreateFilePermissionsMiddleware (succeeding gs path) r =
      CreateFilePermissionsMiddleware (succeeding gs' path) r := by
  have hb : allowedLoop r.Method path gs = allowedLoop r.Method path gs' := by
    rw [Bool.eq_iff_iff, allowedLoop_iff, allowedLoop_iff]
    exact h
  rw [run_of_success (succeeding gs path) r gs path rfl rfl,
    run_of_success (succeeding gs' path) r gs' path rfl rfl, hb]

/-- A grant that allows some request has access `Read` or `ReadWrite`. -/
theorem access_of_specGrantAllows (g : PathGrant) (method path : GoString)
    (h : specGrantAllows g method path) : g.Access = Read ∨ g.Access = ReadWrite := by
  rcases h.2 with ⟨_, ha⟩ | ⟨_, ha⟩
  · exact ha
  · exact Or.inr ha

/-- Claim C14. A grant whose access level is neither `Read` nor `ReadWrite` is
inert: for every grant list, path and request, removing all such grants from
the list leaves the run unchanged, and a list made of such grants only denies
the request. -/
theorem C14_unknown_access_level_is_inert (path : GoString) (r : Request) :
    (∀ gs : List PathGrant,
        CreateFilePermissionsMiddleware
            (succeeding (gs.filter (fun g => decide (g.Access = Read ∨ g.Access = ReadWrite)))
              path) r
          = CreateFilePermissionsMiddleware (succeeding gs path) r) ∧
      (∀ gs : List PathGrant, (∀ g ∈ gs, g.Access ≠ Read ∧ g.Access ≠ ReadWrite) →
        CreateFilePermissionsMiddleware (succeeding gs path) r = specDeny r) := by
  constructor
  · intro gs
    refine succeeding_eq_of_exists_iff path r _ _ ?_
    constructor
    · rintro ⟨g, hmem, hallow⟩
      exact ⟨g, (List.mem_filter.1 hmem).1, hallow⟩
    · rintro ⟨g, hmem, hallow⟩
      refine ⟨g, List.mem_filter.2 ⟨hmem, ?_⟩, hallow⟩
      exact decide_eq_true (access_of_specGrantAllows g _ _ hallow)
  · intro gs hinert
    rw [succeeding_deny_iff]
    rintro ⟨g, hmem, hallow⟩
    rcases access_of_specGrantAllows g _ _ hallow with ha | ha
    · exact (hinert g hmem).1 ha
    · exact (hinert g hmem).2 ha

/-- Runs of C14: grants with the access levels `W`, `rw` and the empty string
on `/` deny a `GET` and a `POST` of `/docs/readme.md`; next to a
`{Read, "/docs"}` grant they change nothing. -/
theorem C14_witness :
    CreateFilePermissionsMiddleware
        (succeeding [⟨str "W", str "/"⟩, ⟨str "rw", str "/"⟩, ⟨str "", str "/"⟩]
          (str "/docs/readme.md")) (requestWith "GET") = specDeny (requestWith "GET") ∧
    CreateFilePermissionsMiddleware
        (succeeding [⟨str "W", str "/"⟩, ⟨str "rw", str "/"⟩, ⟨str "", str "/"⟩]
          (str "/docs/readme.md")) (requestWith "POST") = specDeny (requestWith "POST") ∧
    CreateFilePermissionsMiddleware
        (succeeding [⟨str "W", str "/"⟩, ⟨Read, str "/docs"⟩] (str "/docs/readme.md"))
        (requestWith "POST")
      = CreateFilePermissionsMiddleware
        (succeeding [⟨Read, str "/docs"⟩] (str "/docs/readme.md")) (requestWith "POST") :=
  ⟨(C14_unknown_access_level_is_inert (str "/docs/readme.md") (requestWith "GET")).2 _
      (by decide),
    (C14_unknown_access_level_is_inert (str "/docs/readme.md") (requestWith "POST")).2 _
      (by decide),
    ((C14_unknown_access_level_is_inert (str "/docs/readme.md") (requestWith "POST")).1
      [⟨str "W", str "/"⟩, ⟨Read, str "/docs"⟩]).symm.trans (by decide)⟩

/-- Claim C15. Monotonicity in the grant set: when every grant of `gs` occurs
in `gs'` and the request is allowed on `gs`, it is allowed on `gs'`. -/
theorem C15_more_grants_never_revoke (path : GoString) (r : Request)
    (gs gs' : List PathGrant) (hsub : ∀ g ∈ gs, g ∈ gs')
    (hallow : CreateFilePermissionsMiddleware (succeeding gs path) r = specAllow r) :
    CreateFilePermissionsMiddleware (succeeding gs' path) r = specAllow r := by
  rw [succeeding_allow_iff] at hallow ⊢
  obtain ⟨g, hmem, hg⟩ := hallow
  exact ⟨g, hsub g hmem, hg⟩

/-- A run of C15: the `GET` allowed by `[{Read, "/docs"}]` stays allowed when
grants on `/` and `/other` are put around it. -/
theorem C15_witness :
    CreateFilePermissionsMiddleware
        (succeeding [⟨str "W", str "/"⟩, ⟨Read, str "/docs"⟩, ⟨ReadWrite, str "/other"⟩]
          (str "/docs/readme.md")) (requestWith "GET") = specAllow (requestWith "GET") :=
  C15_more_grants_never_revoke (str "/docs/readme.md") (requestWith "GET")
    [⟨Read, str "/docs"⟩]
    [⟨str "W", str "/"⟩, ⟨Read, str "/docs"⟩, ⟨ReadWrite, str "/other"⟩]
    (by decide) (by decide)

/-! ## Outcomes of the gate -/

/-- When `handleError` returns, it has written exactly one status. -/
theorem handleError_returned (e : GoError) (h : (handleError e).exit = .returned ()) :
    ∃ c, headersWritten (handleError e).calls = [c] := by
  cases e with
  | other msg => exact ⟨500, (handleError_other_response msg).1⟩
  | ptrError p =>
    cases p with
    | none => rw [handleError_nil] at h; cases h
    | some v =>
      by_cases hv : v.Code < 100 ∨ v.Code > 999
      · rw [handleError_invalid v hv] at h; cases h
      · exact ⟨v.Code, (handleError_valid_response v hv).1⟩

/-- No path through `handleError` consults the path resolver. -/
theorem handleError_no_path_call (e : GoError) (r' : Request) :
    Call.GetRequestedPath r' ∉ (handleError e).calls := by
  cases e with
  | other msg => rw [handleError_other]; simp
  | ptrError p =>
    cases p with
    | none => rw [handleError_nil]; simp
    | some v =>
      by_cases hv : v.Code < 100 ∨ v.Code > 999
      · rw [handleError_invalid v hv]; simp
      · rw [handleError_valid v hv]
        by_cases h1 : v.Code = 401
        · simp [h1]
        · by_cases h0 : v.Code = 400
          · simp [h0]
          · simp [h1, h0]

/-- Claim C16. Exactly one terminal outcome: whenever the handler returns
(does not panic), either the next handler is invoked exactly once, with the
request, and the handler writes no status and no body, or the next handler is
not invoked and the handler writes exactly one status; the two do not hold
together. -/
theorem C16_exactly_one_outcome (helpers : Helpers) (r : Request)
    (hret : (CreateFilePermissionsMiddleware helpers r).exit = .returned ()) :
    ((nextRequests (CreateFilePermissionsMiddleware helpers r).calls = [r] ∧
          headersWritten (CreateFilePermissionsMiddleware helpers r).calls = [] ∧
          (∀ b, Call.Write b ∉ (CreateFilePermissionsMiddleware helpers r).calls)) ∨
        (nextRequests (CreateFilePermissionsMiddleware helpers r).calls = [] ∧
          ∃ c, headersWritten (CreateFilePermissionsMiddleware helpers r).calls = [c])) ∧
      ¬ ((nextRequests (CreateFilePermissionsMiddleware helpers r).calls = [r] ∧
          headersWritten (CreateFilePermissionsMiddleware helpers r).calls = [] ∧
          (∀ b, Call.Write b ∉ (CreateFilePermissionsMiddleware helpers r).calls)) ∧
        (nextRequests (CreateFilePermissionsMiddleware helpers r).calls = [] ∧
          ∃ c, headersWritten (CreateFilePermissionsMiddleware helpers r).calls = [c])) := by
  refine ⟨?_, ?_⟩
  · rcases hg : helpers.GetUserGrants r with ⟨grants, _ | e⟩
    · rcases hp : helpers.GetRequestedPath r with ⟨path, _ | e⟩
      · rw [run_of_success helpers r grants path hg hp]
        by_cases ha : allowedLoop r.Method path grants = true
        · rw [if_pos ha]
          exact Or.inl ⟨rfl, rfl, fun b hb => by simp [specAllow] at hb⟩
        · rw [if_neg ha]
          exact Or.inr ⟨rfl, 401, rfl⟩
      · obtain ⟨hh, _, _, hn, hx⟩ :=
          run_of_failure_response helpers r e (Or.inr ⟨grants, path, hg, hp⟩)
        obtain ⟨c, hc⟩ := handleError_returned e (hx ▸ hret)
        exact Or.inr ⟨hn, c, hh.trans hc⟩
    · obtain ⟨hh, _, _, hn, hx⟩ := run_of_failure_response helpers r e (Or.inl ⟨grants, hg⟩)
      obtain ⟨c, hc⟩ := handleError_returned e (hx ▸ hret)
      exact Or.inr ⟨hn, c, hh.trans hc⟩
  · rintro ⟨⟨h1, _, _⟩, h2, _⟩
    rw [h1] at h2
    cases h2

/-- Runs of C16: an allowed request is forwarded once and nothing is written;
a denied request, and a request on which the grant source fails, are not
forwarded and get one status. -/
theorem C16_witness :
    (nextRequests (CreateFilePermissionsMiddleware
          (succeeding [⟨Read, str "/docs"⟩] (str "/docs/readme.md"))
          (requestWith "GET")).calls = [requestWith "GET"] ∧
        headersWritten (CreateFilePermissionsMiddleware
          (succeeding [⟨Read, str "/docs"⟩] (str "/docs/readme.md"))
          (requestWith "GET")).calls = []) ∧
      (nextRequests (CreateFilePermissionsMiddleware
          (succeeding [⟨Read, str "/docs"⟩] (str "/docs/readme.md"))
          (requestWith "POST")).calls = [] ∧
        ∃ c, headersWritten (CreateFilePermissionsMiddleware
          (succeeding [⟨Read, str "/docs"⟩] (str "/docs/readme.md"))
          (requestWith "POST")).calls = [c]) ∧
      (nextRequests (CreateFilePermissionsMiddleware
          (constHelpers ([], some (.other (str "down"))) (str "/docs", none))
          (requestWith "GET")).calls = [] ∧
        ∃ c, headersWritten (CreateFilePermissionsMiddleware
          (constHelpers ([], some (.other (str "down"))) (str "/docs", none))
          (requestWith "GET")).calls = [c]) := by
  refine ⟨?_, ?_, ?_⟩
  · rcases (C16_exactly_one_outcome
        (succeeding [⟨Read, str "/docs"⟩] (str "/docs/readme.md")) (requestWith "GET")
        (by decide)).1 with h | h
    · exact ⟨h.1, h.2.1⟩
    · exact absurd h.1 (by decide)
  · rcases (C16_exactly_one_outcome
        (succeeding [⟨Read, str "/docs"⟩] (str "/docs/readme.md")) (requestWith "POST")
        (by decide)).1 with h | h
    · exact absurd h.1 (by decide)
    · exact h
  · rcases (C16_exactly_one_outcome
        (constHelpers ([], some (.other (str "down"))) (str "/docs", none))
        (requestWith "GET") (by decide)).1 with h | h
    · exact absurd h.1 (by decide)
    · exact h

/-- Claim C17. The grant source is consulted first and its failure takes
precedence: when `GetUserGrants` fails with `e`, the run is the call of
`GetUserGrants` followed by `handleError e`; `GetRequestedPath` is not
invoked, and the run is the same for every path resolver, whether that one
would succeed or fail. -/
theorem C17_grant_failure_takes_precedence (helpers helpers' : Helpers) (r : Request)
    (grants grants' : List PathGrant) (e : GoError)
    (hg : helpers.GetUserGrants r = (grants, some e))
    (hg' : helpers'.GetUserGrants r = (grants', some e)) :
    CreateFilePermissionsMiddleware helpers r = CreateFilePermissionsMiddleware helpers' r ∧
      CreateFilePermissionsMiddleware helpers r
        = ⟨.GetUserGrants r :: (handleError e).calls, (handleError e).exit⟩ ∧
      (∀ r', Call.GetRequestedPath r' ∉ (CreateFilePermissionsMiddleware helpers r).calls) ∧
      (CreateFilePermissionsMiddleware helpers r).calls.head? = some (.GetUserGrants r) := by
  rw [run_of_grant_failure helpers r grants e hg,
    run_of_grant_failure helpers' r grants' e hg']
  refine ⟨rfl, rfl, ?_, rfl⟩
  intro r' hmem
  rw [List.mem_cons] at hmem
  rcases hmem with h | h
  · cases h
  · exact handleError_no_path_call e r' h

/-- Runs of C17: with a grant source failing with code 401, the run is the
same when the path resolver succeeds, fails with code 400, or fails with an
unclassified error; it is the 401 response. -/
theorem C17_witness :
    CreateFilePermissionsMiddleware
        (constHelpers ([], some (.ptrError (some ⟨401, str "no"⟩))) (str "/docs", none))
        (requestWith "GET")
      = CreateFilePermissionsMiddleware
        (constHelpers ([], some (.ptrError (some ⟨401, str "no"⟩)))
          (str "", some (.ptrError (some ⟨400, str "bad"⟩))))
        (requestWith "GET") ∧
    CreateFilePermissionsMiddleware
        (constHelpers ([], some (.ptrError (some ⟨401, str "no"⟩))) (str "/docs", none))
        (requestWith "GET")
      = CreateFilePermissionsMiddleware
        (constHelpers ([⟨ReadWrite, str "/"⟩], some (.ptrError (some ⟨401, str "no"⟩)))
          (str "", some (.other (str "boom"))))
        (requestWith "GET") ∧
    headersWritten (CreateFilePermissionsMiddleware
        (constHelpers ([], some (.ptrError (some ⟨401, str "no"⟩))) (str "/docs", none))
        (requestWith "GET")).calls = [401] :=
  ⟨(C17_grant_failure_takes_precedence _ _ (requestWith "GET") [] []
      (.ptrError (some ⟨401, str "no"⟩)) rfl rfl).1,
    (C17_grant_failure_takes_precedence _ _ (requestWith "GET") [] [⟨ReadWrite, str "/"⟩]
      (.ptrError (some ⟨401, str "no"⟩)) rfl rfl).1,
    by decide⟩

end FilePermissions
